import Mathlib

set_option autoImplicit false

namespace JiraLand

/-! Shallow embedding of the JiraLand core pipeline (`JLError.py`,
`JLFileHandler.py`).  Tables are modelled as column lists plus labelled
rows of string cells; pandas/Python failure modes are explicit:
returned `JLError` values and raised Python exceptions are separate
constructors of `PyResult`. -/

/-- `JLError`: an error value carrying a human-readable message
(`str(error)` yields the message). -/
structure JLError where
  message : String
deriving DecidableEq, Repr

/-- Result of one Python pipeline function: a normal return value, a
returned `JLError`, or a raised (uncaught) Python exception, named by its
exception class. -/
inductive PyResult (α : Type) where
  | ok (a : α)
  | err (e : JLError)
  | exn (e : String)
deriving DecidableEq, Repr

/-- `true` exactly when the computation raised a Python exception. -/
def PyResult.isExn {α : Type} : PyResult α → Bool
  | .exn _ => true
  | _ => false

/-- One table row: an association list from column name to cell value.
A column name absent from the list models a NaN cell. -/
abbrev Row := List (String × String)

/-- A pandas DataFrame: the column list and the labelled rows (each row
keeps its index label, as pandas keeps `RangeIndex` labels through
filtering). -/
structure DataFrame where
  cols : List String
  rows : List (Nat × Row)
deriving DecidableEq, Repr

/-- A table as read from disk, before index labels are attached. -/
structure RawTable where
  cols : List String
  rows : List Row
deriving DecidableEq, Repr

/-- Reading a file attaches the default `RangeIndex` labels 0, 1, 2, …. -/
def RawTable.toDF (t : RawTable) : DataFrame :=
  ⟨t.cols, t.rows.enum⟩

/-- The file system as seen by `pd.read_csv` / `pd.read_excel`: `none`
models a missing file (`FileNotFoundError`), `some t` a readable table. -/
abbrev FileSystem := String → Option RawTable

/-- Look up a cell value in a row (first entry with the given key). -/
def getCell (r : Row) (c : String) : Option String :=
  (r.find? (fun p => p.1 == c)).map (fun p => p.2)

/-- Python `str.split(".")`: split on every dot, keeping empty pieces. -/
def splitOnDot : List Char → List (List Char)
  | [] => [[]]
  | c :: t =>
    if c == '.' then [] :: splitOnDot t
    else
      match splitOnDot t with
      | h :: t2 => (c :: h) :: t2
      | [] => [[c]]

/-- Python `file.split(".")[-1]`: the substring after the last dot, or
the whole string when it contains no dot. -/
def fileExtension (file : String) : String :=
  String.mk ((splitOnDot file.data).getLastD [])

/-- The supported-format set of `_check_file_extension`. -/
def supported_file_types : List String := ["xls", "xlsx", "csv"]

/-- Message of the unsupported-extension error. -/
def unsupportedTypeMsg : String :=
  "Unsupported file type.\nPlease use only excel or csv files."

/-- Message of the missing-file error. -/
def fileNotFoundMsg : String := "File not found!"

/-- Message of the missing-columns error (shared by both normalizers). -/
def missingColumnsMsg : String :=
  "One or more table columns missing.\nPlease check if table is in expected format."

/-- `FileHandler._check_file_extension`. -/
def check_file_extension (file : String) : String ⊕ JLError :=
  if supported_file_types.contains (fileExtension file) then
    Sum.inl (fileExtension file)
  else
    Sum.inr ⟨unsupportedTypeMsg⟩

/-- `FileHandler._load_data`: the extension gate runs first; only then is
a read attempted, and only `FileNotFoundError` is converted to a
`JLError`. -/
def load_data (fs : FileSystem) (file : String) : PyResult DataFrame :=
  match check_file_extension file with
  | Sum.inr e => .err e
  | Sum.inl _ =>
    match fs file with
    | none => .err ⟨fileNotFoundMsg⟩
    | some t => .ok t.toDF

/-- Leftmost match of the PI regex (two digits, a literal dot, one digit),
as computed by `re.search` with the pattern of `_determine_current_pi`. -/
def piSearchAux : List Char → Option String
  | c1 :: c2 :: c3 :: c4 :: rest =>
    if c1.isDigit && c2.isDigit && c3 == '.' && c4.isDigit then
      some (String.mk [c1, c2, c3, c4])
    else
      piSearchAux (c2 :: c3 :: c4 :: rest)
  | _ => none

/-- `re.search` of the PI pattern over a string. -/
def piSearch (s : String) : Option String :=
  piSearchAux s.data

/-- Python `str` comparison on character lists: lexicographic by code
point, a proper prefix comparing smaller. -/
def pyCharsLt : List Char → List Char → Bool
  | _, [] => false
  | [], _ :: _ => true
  | a :: as, b :: bs =>
    if a.toNat < b.toNat then true
    else if b.toNat < a.toNat then false
    else pyCharsLt as bs

/-- Python `a < b` on strings. -/
def pyStrLt (a b : String) : Bool :=
  pyCharsLt a.data b.data

/-- Python `max` over a nonempty list of strings: keeps the current
element unless the next one is strictly greater. -/
def pyMax (x : String) (xs : List String) : String :=
  xs.foldl (fun a b => if pyStrLt a b then b else a) x

/-- Python substring test `pat in hay`. -/
def listContainsSub : List Char → List Char → Bool
  | [], pat => pat.isEmpty
  | c :: t, pat => List.isPrefixOf pat (c :: t) || listContainsSub t pat

/-- Python substring test on strings. -/
def strContains (hay pat : String) : Bool :=
  listContainsSub hay.data pat.data

/-- The list comprehension of `_determine_current_pi`, evaluated left to
right: a non-string (NaN) element makes `re.search` raise `TypeError`,
and a string with no PI match makes `.group(0)` raise `AttributeError`
on `None`. -/
def piMatches : List (Option String) → Except String (List String)
  | [] => .ok []
  | none :: _ => .error "TypeError"
  | some s :: rest =>
    match piSearch s with
    | none => .error "AttributeError"
    | some m => (piMatches rest).map (fun l => m :: l)

/-- `FileHandler._determine_current_pi`: `max` of all PI matches;
`max` of an empty sequence raises `ValueError`. -/
def determine_current_pi (sprints : List (Option String)) : PyResult String :=
  match piMatches sprints with
  | .error e => .exn e
  | .ok [] => .exn "ValueError"
  | .ok (m :: ms) => .ok (pyMax m ms)

/-- The filtered comprehension of `_determine_latest_sprint`: the last
character of every sprint containing the current PI.  A NaN element makes
the `in` test raise `TypeError`; indexing an empty string raises
`IndexError`. -/
def lastCharsOfMatching (current_pi : String) : List (Option String) → Except String (List String)
  | [] => .ok []
  | none :: _ => .error "TypeError"
  | some s :: rest =>
    if strContains s current_pi then
      match s.data.getLast? with
      | none => .error "IndexError"
      | some c => (lastCharsOfMatching current_pi rest).map (fun l => String.mk [c] :: l)
    else
      lastCharsOfMatching current_pi rest

/-- `FileHandler._determine_latest_sprint`. -/
def determine_latest_sprint (sprints : List (Option String)) (current_pi : String) : PyResult String :=
  match lastCharsOfMatching current_pi sprints with
  | .error e => .exn e
  | .ok [] => .exn "ValueError"
  | .ok (c :: cs) => .ok (pyMax c cs)

/-- `re.sub` of the PI pattern: replace every leftmost, non-overlapping
match.  The replacement text is inserted literally, which is faithful for
the digit-and-dot replacement strings this program produces. -/
def subPiAll (repl : List Char) : List Char → List Char
  | c1 :: c2 :: c3 :: c4 :: rest =>
    if c1.isDigit && c2.isDigit && c3 == '.' && c4.isDigit then
      repl ++ subPiAll repl rest
    else
      c1 :: subPiAll repl (c2 :: c3 :: c4 :: rest)
  | other => other

/-- `re.sub` of the trailing-digit pattern of `_compose_query`: replace
the final digit of the string (also when it stands just before a single
trailing newline, which the anchor also accepts). -/
def subLastDigit (repl : String) (s : String) : String :=
  match s.data.reverse with
  | [] => s
  | c :: rest =>
    if c.isDigit then String.mk rest.reverse ++ repl
    else if c == '\n' then
      match rest with
      | [] => s
      | d :: rest2 =>
        if d.isDigit then String.mk rest2.reverse ++ repl ++ "\n" else s
    else s

/-- `FileHandler._compose_query`.  The argument is the labelled "Sprint"
series; indexing it at 0 is a pandas label lookup, raising `KeyError`
when no row has index label 0, and `re.sub` raises `TypeError` on a NaN
template. -/
def compose_query (sprints : List (Nat × Option String)) (current_pi current_sprint : String) : PyResult String :=
  match sprints.find? (fun p => p.1 == 0) with
  | none => .exn "KeyError"
  | some (_, none) => .exn "TypeError"
  | some (_, some raw_data) =>
    .ok (subLastDigit current_sprint (String.mk (subPiAll current_pi.data raw_data.data)))

/-- Does the table have every column of `cs`? -/
def hasAllCols (df : DataFrame) (cs : List String) : Bool :=
  cs.all (fun c => df.cols.contains c)

/-- Column selection `df[[…]]`: keep the named columns in the requested
order; a missing column raises `KeyError`, modelled as `none`. -/
def selectCols (df : DataFrame) (cs : List String) : Option DataFrame :=
  if hasAllCols df cs then
    some ⟨cs, df.rows.map (fun p =>
      (p.1, cs.filterMap (fun c => (getCell p.2 c).map (fun v => (c, v)))))⟩
  else
    none

/-- Column rename `df.rename`. -/
def renameCol (df : DataFrame) (old new : String) : DataFrame :=
  ⟨df.cols.map (fun c => if c == old then new else c),
   df.rows.map (fun p => (p.1, p.2.map (fun q => if q.1 == old then (new, q.2) else q)))⟩

/-- Row filter `df.query` on equality with a constant: keep the rows
whose cell equals `v` (a NaN cell compares unequal). -/
def filterEq (df : DataFrame) (c v : String) : DataFrame :=
  ⟨df.cols, df.rows.filter (fun p => getCell p.2 c == some v)⟩

/-- The five columns `_normalize_jira_export_file` requires. -/
def jiraRequiredCols : List String :=
  ["Summary", "Issue key", "Issue Type", "Custom field (Feature Link)", "Sprint"]

/-- The two columns `_normalize_map_file` requires. -/
def mapRequiredCols : List String := ["Feature", "Label"]

/-- The `truncated_data` value of `_normalize_jira_export_file` after the
rename and the Story filter. -/
def storiesOf (td : DataFrame) : DataFrame :=
  filterEq (renameCol td "Custom field (Feature Link)" "Feature") "Issue Type" "Story"

/-- The labelled "Sprint" series `sprints_info`. -/
def sprintSeries (df : DataFrame) : List (Nat × Option String) :=
  df.rows.map (fun p => (p.1, getCell p.2 "Sprint"))

/-- Body of `_normalize_jira_export_file` after a successful column
truncation: rename the feature-link column, keep Story rows, infer the
current PI and sprint, compose the query and filter by it. -/
def normalize_jira_truncated (td : DataFrame) : PyResult DataFrame :=
  match determine_current_pi ((sprintSeries (storiesOf td)).map (fun p => p.2)) with
  | .err e => .err e
  | .exn e => .exn e
  | .ok active_pi =>
    match determine_latest_sprint ((sprintSeries (storiesOf td)).map (fun p => p.2)) active_pi with
    | .err e => .err e
    | .exn e => .exn e
    | .ok active_sprint =>
      match compose_query (sprintSeries (storiesOf td)) active_pi active_sprint with
      | .err e => .err e
      | .exn e => .exn e
      | .ok query => .ok (filterEq (storiesOf td) "Sprint" query)

/-- Column-truncation step of `_normalize_jira_export_file`: a `KeyError`
from the selection is caught and turned into the missing-columns error. -/
def normalize_jira_table (df : DataFrame) : PyResult DataFrame :=
  match selectCols df jiraRequiredCols with
  | none => .err ⟨missingColumnsMsg⟩
  | some td => normalize_jira_truncated td

/-- `FileHandler._normalize_jira_export_file`. -/
def normalize_jira_export_file (fs : FileSystem) (file : String) : PyResult DataFrame :=
  match load_data fs file with
  | .err e => .err e
  | .exn e => .exn e
  | .ok df => normalize_jira_table df

/-- `FileHandler._normalize_map_file`. -/
def normalize_map_file (fs : FileSystem) (file : String) : PyResult DataFrame :=
  match load_data fs file with
  | .err e => .err e
  | .exn e => .exn e
  | .ok df =>
    match selectCols df mapRequiredCols with
    | none => .err ⟨missingColumnsMsg⟩
    | some nd => .ok nd

/-- Rows of the inner merge on the "Feature" column: for each left row,
in order, every right row with an equal Feature key contributes its
non-key cells after the left row's cells. -/
def joinRows (ra rb : List (Nat × Row)) : List Row :=
  ra.flatMap (fun pa => rb.filterMap (fun pb =>
    if getCell pa.2 "Feature" == getCell pb.2 "Feature" then
      some (pa.2 ++ pb.2.filter (fun q => !(q.1 == "Feature")))
    else
      none))

/-- The `pd.merge` call of `_merge_files`, for tables that share only the
key column (the shape the two normalizers produce): result columns are
the left columns followed by the non-key right columns, and the result
receives a fresh `RangeIndex`. -/
def pdMerge (a b : DataFrame) : DataFrame :=
  ⟨a.cols ++ b.cols.filter (fun c => !(c == "Feature")),
   (joinRows a.rows b.rows).enum⟩

/-- Replace the value of every "Summary" cell of a row. -/
def setSummary (v : String) (r : Row) : Row :=
  r.map (fun p => if p.1 == "Summary" then (p.1, v) else p)

/-- One row of the Summary concatenation of `_merge_files` (join of the
"Issue key" and "Summary" cells with a single space, written back into
the "Summary" column): `str.join` raises `TypeError` when either cell is
NaN. -/
def applySummaryJoin (r : Row) : Except String Row :=
  match getCell r "Issue key", getCell r "Summary" with
  | some k, some s => .ok (setSummary (k ++ " " ++ s) r)
  | _, _ => .error "TypeError"

/-- Apply a fallible per-row rewrite to every labelled row, left to
right, keeping labels. -/
def mapRowsE (f : Row → Except String Row) : List (Nat × Row) → Except String (List (Nat × Row))
  | [] => .ok []
  | p :: rest =>
    match f p.2 with
    | .error e => .error e
    | .ok r => (mapRowsE f rest).map (fun l => (p.1, r) :: l)

/-- The branching of `_merge_files` on the two normalization results,
followed by the merge and the Summary concatenation.  A raised exception
from the jira side propagates before anything else, as in the Python
evaluation order. -/
def combine_results (ja ma : PyResult DataFrame) : PyResult DataFrame :=
  match ja, ma with
  | .exn e, _ => .exn e
  | _, .exn e => .exn e
  | .err e1, .err e2 =>
    .err ⟨e1.message ++ "(from Jira extraction file) and\n" ++ e2.message ++ " (from map file)"⟩
  | .err e1, .ok _ => .err ⟨e1.message ++ " (from Jira extraction file)"⟩
  | .ok _, .err e2 => .err ⟨e2.message ++ " (from map file)"⟩
  | .ok a, .ok b =>
    match mapRowsE applySummaryJoin (pdMerge a b).rows with
    | .error e => .exn e
    | .ok rows => .ok ⟨(pdMerge a b).cols, rows⟩

/-- `FileHandler._merge_files`. -/
def merge_files (fs : FileSystem) (file map_file : String) : PyResult DataFrame :=
  combine_results (normalize_jira_export_file fs file) (normalize_map_file fs map_file)

/-- Result of `FileHandler.generate_csv`: either an uncaught Python
exception, or the returned string together with the file written by
`to_csv` (its path, and the serialized table: `cols` is the CSV header
row, `rows` the data lines, no index column). -/
inductive GenResult where
  | exn (e : String)
  | msg (s : String) (written : Option (String × DataFrame))
deriving DecidableEq, Repr

/-- `true` exactly when `generate_csv` returned a string. -/
def GenResult.isMsg : GenResult → Bool
  | .msg _ _ => true
  | .exn _ => false

/-- `FileHandler.generate_csv`. -/
def generate_csv (fs : FileSystem) (jira_file map_file export_file_name : String) : GenResult :=
  match merge_files fs jira_file map_file with
  | .exn e => .exn e
  | .err e => .msg e.message none
  | .ok df =>
    match selectCols df ["Issue Type", "Summary", "Label"] with
    | none => .exn "KeyError"
    | some out => .msg "CSV file generated successfully!" (some (export_file_name ++ ".csv", out))

/-! ### Concrete fixtures used by witnesses and counterexamples -/

/-- A file system with no files: every read raises `FileNotFoundError`. -/
def fsNone : FileSystem := fun _ => none

/-- The three-Story export table of the sprint-inference scenario. -/
def jiraTable3 : RawTable :=
  ⟨["Summary", "Issue key", "Issue Type", "Custom field (Feature Link)", "Sprint"],
   [[("Summary", "Fix login"), ("Issue key", "JL-1"), ("Issue Type", "Story"),
     ("Custom field (Feature Link)", "F-1"), ("Sprint", "PI23.1 Sprint 4")],
    [("Summary", "Add report"), ("Issue key", "JL-2"), ("Issue Type", "Story"),
     ("Custom field (Feature Link)", "F-2"), ("Sprint", "PI23.2 Sprint 1")],
    [("Summary", "Write docs"), ("Issue key", "JL-3"), ("Issue Type", "Story"),
     ("Custom field (Feature Link)", "F-1"), ("Sprint", "PI23.2 Sprint 3")]]⟩

/-- A file system holding only the three-Story export table. -/
def fs3 : FileSystem := fun f => if f == "jira.csv" then some jiraTable3 else none

/-- A mapping table matching the feature of the surviving Story row. -/
def mapTable1 : RawTable :=
  ⟨["Feature", "Label"], [[("Feature", "F-1"), ("Label", "team-kiwi")]]⟩

/-- A file system holding the export table and the mapping table. -/
def fs8 : FileSystem := fun f =>
  if f == "jira.csv" then some jiraTable3
  else if f == "map.csv" then some mapTable1 else none

/-- An export table that passes column validation but contains no row at
all, hence no Story row. -/
def emptyStoryTable : RawTable :=
  ⟨["Summary", "Issue key", "Issue Type", "Custom field (Feature Link)", "Sprint"], []⟩

/-- A file system holding only the empty (but column-valid) export
table. -/
def fsC1 : FileSystem := fun f => if f == "a.csv" then some emptyStoryTable else none

/-- A loadable table missing all required columns. -/
def badColsTable : RawTable := ⟨["Foo"], [[("Foo", "x")]]⟩

/-- A file system holding only the bad-columns table. -/
def fsBad : FileSystem := fun f => if f == "bad.csv" then some badColsTable else none

/-! ### Helper lemmas -/

/-- Unfolding `getCell` over a cons cell. -/
lemma getCell_cons (p : String × String) (t : Row) (c : String) :
    getCell (p :: t) c = if p.1 = c then some p.2 else getCell t c := by
  by_cases hp : p.1 = c <;> simp [getCell, List.find?_cons, hp]

/-- The non-key cells contributed by a right row contain no "Feature"
entry, so a lookup in them fails. -/
lemma getCell_filter_no_feature (rb : Row) :
    getCell (rb.filter (fun q => !(q.1 == "Feature"))) "Feature" = none := by
  induction rb with
  | nil => rfl
  | cons q t ih =>
    by_cases hq : q.1 = "Feature"
    · simp [List.filter_cons, hq, ih]
    · simp [List.filter_cons, hq, getCell_cons, ih]

/-- Looking up "Feature" in a joined row finds the left row's cell. -/
lemma getCell_append_no_feature (ra rb : Row) :
    getCell (ra ++ rb.filter (fun q => !(q.1 == "Feature"))) "Feature" =
      getCell ra "Feature" := by
  induction ra with
  | nil => rw [List.nil_append, getCell_filter_no_feature]; rfl
  | cons p t ih =>
    by_cases hp : p.1 = "Feature" <;> simp [getCell_cons, hp, ih]

/-- Any row of the inner join comes from one left row and one right row
with equal "Feature" keys. -/
lemma mem_joinRows {ra rb : List (Nat × Row)} {r : Row} (h : r ∈ joinRows ra rb) :
    ∃ pa ∈ ra, ∃ pb ∈ rb,
      getCell pa.2 "Feature" = getCell pb.2 "Feature" ∧
      r = pa.2 ++ pb.2.filter (fun q => !(q.1 == "Feature")) := by
  unfold joinRows at h
  simp only [List.mem_flatMap, List.mem_filterMap] at h
  obtain ⟨pa, hpa, pb, hpb, hr⟩ := h
  split at hr
  · rename_i hfeq
    refine ⟨pa, hpa, pb, hpb, by simp at hfeq; exact hfeq, ?_⟩
    cases hr
    rfl
  · exact Option.noConfusion hr

/-- A pair in an enumerated list has its second component in the list. -/
lemma snd_mem_of_mem_enumFrom {α : Type} :
    ∀ (n : Nat) (l : List α) (p : Nat × α), p ∈ List.enumFrom n l → p.2 ∈ l := by
  intro n l
  induction l generalizing n with
  | nil => intro p h; cases h
  | cons a t ih =>
    intro p h
    rcases List.mem_cons.mp h with h1 | h2
    · subst h1; exact List.mem_cons_self _ _
    · exact List.mem_cons_of_mem _ (ih (n + 1) p h2)

/-- Rewriting the "Summary" cell of a row that has one yields a row whose
"Summary" cell is the new value. -/
lemma getCell_setSummary {r : Row} {s : String} (v : String)
    (h : getCell r "Summary" = some s) :
    getCell (setSummary v r) "Summary" = some v := by
  induction r with
  | nil => simp [getCell] at h
  | cons p t ih =>
    by_cases hp : p.1 = "Summary"
    · simp [setSummary, getCell_cons, hp]
    · rw [getCell_cons, if_neg hp] at h
      simpa [setSummary, getCell_cons, hp] using ih h

/-- A successful column selection has exactly the requested columns. -/
lemma selectCols_some_cols {df out : DataFrame} {cs : List String}
    (h : selectCols df cs = some out) : out.cols = cs := by
  unfold selectCols at h
  split at h
  · injection h with h2
    rw [← h2]
  · exact Option.noConfusion h

/-- The loader never raises: every failure is a returned `JLError`. -/
lemma load_data_not_exn (fs : FileSystem) (f : String) :
    (load_data fs f).isExn = false := by
  unfold load_data
  cases check_file_extension f with
  | inr e => rfl
  | inl s => cases fs f <;> rfl

/-- A successful jira normalization of a truncated table has the
truncated columns with the feature-link column renamed. -/
lemma normalize_jira_truncated_ok_cols {td df : DataFrame}
    (h : normalize_jira_truncated td = .ok df) :
    df.cols = td.cols.map
      (fun c => if c == "Custom field (Feature Link)" then "Feature" else c) := by
  unfold normalize_jira_truncated at h
  split at h <;> try exact PyResult.noConfusion h
  split at h <;> try exact PyResult.noConfusion h
  split at h <;> try exact PyResult.noConfusion h
  injection h with h2
  rw [← h2]
  rfl

/-- A successful jira normalization yields exactly the five renamed
columns, in order. -/
lemma normalize_jira_ok_cols {fs : FileSystem} {f : String} {df : DataFrame}
    (h : normalize_jira_export_file fs f = .ok df) :
    df.cols = ["Summary", "Issue key", "Issue Type", "Feature", "Sprint"] := by
  unfold normalize_jira_export_file at h
  split at h <;> try exact PyResult.noConfusion h
  unfold normalize_jira_table at h
  split at h <;> try exact PyResult.noConfusion h
  rename_i heq
  rw [normalize_jira_truncated_ok_cols h, selectCols_some_cols heq]
  decide

/-- A successful map normalization yields exactly the two required
columns, in order. -/
lemma normalize_map_ok_cols {fs : FileSystem} {f : String} {df : DataFrame}
    (h : normalize_map_file fs f = .ok df) :
    df.cols = ["Feature", "Label"] := by
  unfold normalize_map_file at h
  split at h <;> try exact PyResult.noConfusion h
  split at h <;> try exact PyResult.noConfusion h
  rename_i heq
  injection h with h2
  rw [← h2]
  exact selectCols_some_cols heq

/-- A successful merge comes from two successful normalizations, and its
columns are the left columns followed by the non-key right columns. -/
lemma merge_files_ok_parts {fs : FileSystem} {jf mf : String} {df : DataFrame}
    (h : merge_files fs jf mf = .ok df) :
    ∃ a b, normalize_jira_export_file fs jf = .ok a ∧
      normalize_map_file fs mf = .ok b ∧
      df.cols = a.cols ++ b.cols.filter (fun c => !(c == "Feature")) := by
  unfold merge_files combine_results at h
  split at h <;> try exact PyResult.noConfusion h
  · rename_i a b hja hjb
    split at h <;> try exact PyResult.noConfusion h
    injection h with h2
    exact ⟨a, b, hja, hjb, by rw [← h2]; rfl⟩

/-- A successful merge has exactly the six output columns, in order. -/
lemma merge_files_ok_cols {fs : FileSystem} {jf mf : String} {df : DataFrame}
    (h : merge_files fs jf mf = .ok df) :
    df.cols = ["Summary", "Issue key", "Issue Type", "Feature", "Sprint", "Label"] := by
  obtain ⟨a, b, ha, hb, hcols⟩ := merge_files_ok_parts h
  rw [hcols, normalize_jira_ok_cols ha, normalize_map_ok_cols hb]
  decide

/-! ### Claim theorems -/

/-- C2 (counterexample): a nonexistent file whose extension is
unsupported does not produce the file-not-found error; the extension
gate fires first and returns the unsupported-type error instead. -/
theorem load_data_missing_file_cex :
    fsNone "data.txt" = none ∧
    load_data fsNone "data.txt" ≠ .err ⟨fileNotFoundMsg⟩ ∧
    load_data fsNone "data.txt" = .err ⟨unsupportedTypeMsg⟩ := by
  decide

/-- C2 (amended): for every nonexistent file whose extension (the
substring after the last dot) is supported, `_load_data` returns the
file-not-found error; the claim's "including unsupported extensions"
part fails because the extension check precedes the read. -/
theorem load_data_missing_file_amended (fs : FileSystem) (file : String)
    (h1 : fs file = none)
    (h2 : supported_file_types.contains (fileExtension file) = true) :
    load_data fs file = .err ⟨fileNotFoundMsg⟩ := by
  have h2m : fileExtension file ∈ supported_file_types := by simpa using h2
  simp [load_data, check_file_extension, h1, h2m]

/-- Witness for the amended C2 at a concrete missing `.csv` file. -/
theorem load_data_missing_file_amended_witness :
    fsNone "report.csv" = none ∧
    supported_file_types.contains (fileExtension "report.csv") = true ∧
    load_data fsNone "report.csv" = .err ⟨fileNotFoundMsg⟩ :=
  ⟨rfl, by decide, load_data_missing_file_amended fsNone "report.csv" rfl (by decide)⟩

/-- C3: on the Story sprint labels of the scenario, the inferred current
PI is "23.2" (maximal PI match over all values), the current sprint is
"3" (maximal trailing character among values containing "23.2"), the
composed query is the first row's label with both substitutions applied,
and the normalizer keeps exactly the rows whose Sprint equals that
composed label. -/
theorem sprint_inference_scenario :
    determine_current_pi
      [some "PI23.1 Sprint 4", some "PI23.2 Sprint 1", some "PI23.2 Sprint 3"] = .ok "23.2" ∧
    determine_latest_sprint
      [some "PI23.1 Sprint 4", some "PI23.2 Sprint 1", some "PI23.2 Sprint 3"] "23.2" = .ok "3" ∧
    compose_query
      [(0, some "PI23.1 Sprint 4"), (1, some "PI23.2 Sprint 1"), (2, some "PI23.2 Sprint 3")]
      "23.2" "3" = .ok "PI23.2 Sprint 3" ∧
    normalize_jira_export_file fs3 "jira.csv" =
      .ok ⟨["Summary", "Issue key", "Issue Type", "Feature", "Sprint"],
           [(2, [("Summary", "Write docs"), ("Issue key", "JL-3"), ("Issue Type", "Story"),
                 ("Feature", "F-1"), ("Sprint", "PI23.2 Sprint 3")])]⟩ := by
  decide

/-- C4: a successfully loaded table missing at least one required column
makes the corresponding normalizer return the missing-columns error
(and hence perform no filtering); both normalizers use the same
message. -/
theorem normalize_missing_columns (fs : FileSystem) (f : String) (df : DataFrame)
    (h : load_data fs f = .ok df) :
    (hasAllCols df jiraRequiredCols = false →
      normalize_jira_export_file fs f = .err ⟨missingColumnsMsg⟩) ∧
    (hasAllCols df mapRequiredCols = false →
      normalize_map_file fs f = .err ⟨missingColumnsMsg⟩) := by
  constructor
  · intro hm
    simp [normalize_jira_export_file, h, normalize_jira_table, selectCols, hm]
  · intro hm
    simp [normalize_map_file, h, selectCols, hm]

/-- Witness for C4 at a concrete loadable table missing every required
column. -/
theorem normalize_missing_columns_witness :
    load_data fsBad "bad.csv" = .ok badColsTable.toDF ∧
    hasAllCols badColsTable.toDF jiraRequiredCols = false ∧
    hasAllCols badColsTable.toDF mapRequiredCols = false ∧
    normalize_jira_export_file fsBad "bad.csv" = .err ⟨missingColumnsMsg⟩ ∧
    normalize_map_file fsBad "bad.csv" = .err ⟨missingColumnsMsg⟩ :=
  ⟨by decide, by decide, by decide,
   (normalize_missing_columns fsBad "bad.csv" badColsTable.toDF (by decide)).1 (by decide),
   (normalize_missing_columns fsBad "bad.csv" badColsTable.toDF (by decide)).2 (by decide)⟩

/-- C7: when both normalizations return errors, `_merge_files` returns a
single combined error holding both messages, each annotated with its
source; when exactly one returns an error, that message is returned
annotated with its source. -/
theorem merge_files_error_sources (fs : FileSystem) (jf mf : String) :
    (∀ e1 e2, normalize_jira_export_file fs jf = .err e1 →
      normalize_map_file fs mf = .err e2 →
      merge_files fs jf mf =
        .err ⟨e1.message ++ "(from Jira extraction file) and\n" ++
              e2.message ++ " (from map file)"⟩) ∧
    (∀ e1 df, normalize_jira_export_file fs jf = .err e1 →
      normalize_map_file fs mf = .ok df →
      merge_files fs jf mf = .err ⟨e1.message ++ " (from Jira extraction file)"⟩) ∧
    (∀ df e2, normalize_jira_export_file fs jf = .ok df →
      normalize_map_file fs mf = .err e2 →
      merge_files fs jf mf = .err ⟨e2.message ++ " (from map file)"⟩) := by
  refine ⟨?_, ?_, ?_⟩ <;> intro x y hx hy <;> simp [merge_files, hx, hy, combine_results]

/-- Witness for C7: both input files missing yields the combined message
naming both file-not-found failures with their source annotations. -/
theorem merge_files_error_sources_witness :
    merge_files fsNone "a.csv" "b.csv" =
      .err ⟨"File not found!(from Jira extraction file) and\nFile not found! (from map file)"⟩ :=
  (merge_files_error_sources fsNone "a.csv" "b.csv").1
    ⟨fileNotFoundMsg⟩ ⟨fileNotFoundMsg⟩ (by decide) (by decide)

/-- C9: an error returned by the loader is passed through unchanged by
both normalizers. -/
theorem normalize_propagates_loader_error (fs : FileSystem) (f : String) (e : JLError)
    (h : load_data fs f = .err e) :
    normalize_jira_export_file fs f = .err e ∧ normalize_map_file fs f = .err e := by
  constructor
  · simp [normalize_jira_export_file, h]
  · simp [normalize_map_file, h]

/-- Witness for C9 at a concrete missing file. -/
theorem normalize_propagates_loader_error_witness :
    normalize_jira_export_file fsNone "a.csv" = .err ⟨fileNotFoundMsg⟩ ∧
    normalize_map_file fsNone "a.csv" = .err ⟨fileNotFoundMsg⟩ :=
  normalize_propagates_loader_error fsNone "a.csv" ⟨fileNotFoundMsg⟩ (by decide)

/-- C10: the extension check compares the final dot-separated segment of
the path (the whole path when it has no dot) with the supported set; on
success a read is attempted (missing file to the file-not-found error,
existing file loaded), and otherwise the unsupported-type error is
returned for every file system, i.e. without any read. -/
theorem extension_check_spec (file : String) :
    (supported_file_types.contains (fileExtension file) = true →
      check_file_extension file = Sum.inl (fileExtension file) ∧
      ∀ fs : FileSystem,
        (fs file = none → load_data fs file = .err ⟨fileNotFoundMsg⟩) ∧
        (∀ t, fs file = some t → load_data fs file = .ok t.toDF)) ∧
    (supported_file_types.contains (fileExtension file) = false →
      check_file_extension file = Sum.inr ⟨unsupportedTypeMsg⟩ ∧
      ∀ fs : FileSystem, load_data fs file = .err ⟨unsupportedTypeMsg⟩) := by
  constructor
  · intro h
    have hm : fileExtension file ∈ supported_file_types := by simpa using h
    refine ⟨by simp [check_file_extension, hm], fun fs => ⟨?_, ?_⟩⟩
    · intro hn
      simp [load_data, check_file_extension, hm, hn]
    · intro t ht
      simp [load_data, check_file_extension, hm, ht]
  · intro h
    have hm : fileExtension file ∉ supported_file_types := by simpa using h
    exact ⟨by simp [check_file_extension, hm],
           fun fs => by simp [load_data, check_file_extension, hm]⟩

/-- Witness for C10 at the dotless path "csv", whose final dot-separated
segment is the whole path and is in the supported set. -/
theorem extension_check_spec_witness :
    supported_file_types.contains (fileExtension "csv") = true ∧
    check_file_extension "csv" = Sum.inl "csv" ∧
    load_data fsNone "csv" = .err ⟨fileNotFoundMsg⟩ := by
  refine ⟨by decide, ?_, (((extension_check_spec "csv").1 (by decide)).2 fsNone).1 rfl⟩
  have h1 := ((extension_check_spec "csv").1 (by decide)).1
  have h2 : fileExtension "csv" = "csv" := by decide
  rw [h2] at h1
  exact h1

/-- C5: the merge is an inner join on "Feature": a Feature value absent
from either side never appears as the Feature of a merged row, so a value
present in only one of the two tables produces no output row. -/
theorem merge_inner_join_only (a b : DataFrame) (v : String)
    (h : (∀ p ∈ a.rows, ¬ getCell p.2 "Feature" = some v) ∨
         (∀ p ∈ b.rows, ¬ getCell p.2 "Feature" = some v)) :
    ∀ p ∈ (pdMerge a b).rows, ¬ getCell p.2 "Feature" = some v := by
  intro p hp
  have h2 : p.2 ∈ joinRows a.rows b.rows :=
    snd_mem_of_mem_enumFrom 0 _ p hp
  obtain ⟨pa, hpa, pb, hpb, hfeq, hr⟩ := mem_joinRows h2
  rw [hr, getCell_append_no_feature]
  cases h with
  | inl ha => exact ha pa hpa
  | inr hb => rw [hfeq]; exact hb pb hpb

/-- Left table of the inner-join witness: one row with Feature "X". -/
def dfLeft1 : DataFrame :=
  ⟨["Summary", "Issue key", "Issue Type", "Feature", "Sprint"],
   [(0, [("Summary", "S"), ("Issue key", "K"), ("Issue Type", "Story"),
         ("Feature", "X"), ("Sprint", "PI23.1 Sprint 1")])]⟩

/-- Right table of the inner-join witness: one row with Feature "Y". -/
def dfRight1 : DataFrame :=
  ⟨["Feature", "Label"], [(0, [("Feature", "Y"), ("Label", "L")])]⟩

/-- Witness for C5: Feature "X" appears only on the left side, and no
merged row carries it. -/
theorem merge_inner_join_only_witness :
    (∀ p ∈ dfRight1.rows, ¬ getCell p.2 "Feature" = some "X") ∧
    ∀ p ∈ (pdMerge dfLeft1 dfRight1).rows, ¬ getCell p.2 "Feature" = some "X" :=
  ⟨by decide, merge_inner_join_only dfLeft1 dfRight1 "X" (Or.inr (by decide))⟩

/-- C6: every row of the table produced by the Summary concatenation of
`_merge_files` comes from a merged row with the same label whose
"Issue key" is `k` and whose original "Summary" is `s`, and its new
"Summary" cell is `k`, one space, then `s`. -/
theorem merged_summary_concat (rows rows2 : List (Nat × Row))
    (h : mapRowsE applySummaryJoin rows = .ok rows2) :
    ∀ p ∈ rows2, ∃ q ∈ rows, p.1 = q.1 ∧
      ∃ k s, getCell q.2 "Issue key" = some k ∧ getCell q.2 "Summary" = some s ∧
        getCell p.2 "Summary" = some (k ++ " " ++ s) := by
  induction rows generalizing rows2 with
  | nil =>
    unfold mapRowsE at h
    injection h with h2
    subst h2
    intro p hp
    cases hp
  | cons q t ih =>
    unfold mapRowsE at h
    cases hk : getCell q.2 "Issue key" with
    | none =>
      rw [applySummaryJoin, hk] at h
      exact Except.noConfusion h
    | some k =>
      cases hs : getCell q.2 "Summary" with
      | none =>
        rw [applySummaryJoin, hk, hs] at h
        exact Except.noConfusion h
      | some s =>
        rw [applySummaryJoin, hk, hs] at h
        cases ht : mapRowsE applySummaryJoin t with
        | error e =>
          rw [ht] at h
          exact Except.noConfusion h
        | ok l =>
          rw [ht] at h
          simp only [Except.map] at h
          injection h with h2
          subst h2
          intro p hp
          rcases List.mem_cons.mp hp with hp1 | hp2
          · subst hp1
            exact ⟨q, List.mem_cons_self _ _, rfl, k, s, hk, hs,
                   getCell_setSummary (k ++ " " ++ s) hs⟩
          · obtain ⟨q2, hq2, rest⟩ := ih l ht p hp2
            exact ⟨q2, List.mem_cons_of_mem _ hq2, rest⟩

/-- Merged rows of the concatenation witness, before the rewrite. -/
def rowsC6 : List (Nat × Row) :=
  [(0, [("Summary", "Do thing"), ("Issue key", "JL-9"), ("Label", "L1")])]

/-- The rewritten row of the concatenation witness. -/
def rowOutC6 : Nat × Row :=
  (0, [("Summary", "JL-9 Do thing"), ("Issue key", "JL-9"), ("Label", "L1")])

/-- Witness for C6 at a concrete merged row. -/
theorem merged_summary_concat_witness :
    ∃ q ∈ rowsC6, rowOutC6.1 = q.1 ∧
      ∃ k s, getCell q.2 "Issue key" = some k ∧ getCell q.2 "Summary" = some s ∧
        getCell rowOutC6.2 "Summary" = some (k ++ " " ++ s) :=
  merged_summary_concat rowsC6 [rowOutC6] rfl rowOutC6 (by decide)

/-- C1 (counterexample): a loaded table that passes column validation but
has no Story row makes period inference raise `ValueError` (Python `max`
of an empty sequence), and the exception escapes `generate_csv`, so no
string is returned. -/
theorem generate_csv_no_throw_cex :
    hasAllCols emptyStoryTable.toDF jiraRequiredCols = true ∧
    generate_csv fsC1 "a.csv" "m.csv" "out" = .exn "ValueError" ∧
    (generate_csv fsC1 "a.csv" "m.csv" "out").isMsg = false := by
  decide

/-- C1 (amended): `generate_csv` returns a human-readable string whenever
the internal pipeline raises no Python exception; in particular every
loader or validation failure still yields a string. -/
theorem generate_csv_no_throw_amended (fs : FileSystem) (jf mf n : String)
    (h : (merge_files fs jf mf).isExn = false) :
    (generate_csv fs jf mf n).isMsg = true := by
  cases hm : merge_files fs jf mf with
  | exn e =>
    rw [hm] at h
    simp [PyResult.isExn] at h
  | err e => simp [generate_csv, hm, GenResult.isMsg]
  | ok df =>
    have hc : hasAllCols df ["Issue Type", "Summary", "Label"] = true := by
      unfold hasAllCols
      rw [merge_files_ok_cols hm]
      decide
    simp [generate_csv, hm, selectCols, hc, GenResult.isMsg]

/-- Witness for the amended C1: both inputs missing raises nothing, and
the returned value is a string. -/
theorem generate_csv_no_throw_amended_witness :
    (merge_files fsNone "a.csv" "b.csv").isExn = false ∧
    (generate_csv fsNone "a.csv" "b.csv" "out").isMsg = true :=
  ⟨by decide, generate_csv_no_throw_amended fsNone "a.csv" "b.csv" "out" (by decide)⟩

/-- C8: on a successful merge, `generate_csv` writes the merged table to
the output name with ".csv" appended, serializing exactly the columns
Issue Type, Summary, Label in that order (cells selected per row in that
order, header being the column list, no index), and returns the success
string; on a merge error it returns the error's message and writes
nothing. -/
theorem generate_csv_output_spec (fs : FileSystem) (jf mf n : String) :
    (∀ e, merge_files fs jf mf = .err e →
      generate_csv fs jf mf n = .msg e.message none) ∧
    (∀ df, merge_files fs jf mf = .ok df →
      ∃ out, selectCols df ["Issue Type", "Summary", "Label"] = some out ∧
        generate_csv fs jf mf n =
          .msg "CSV file generated successfully!" (some (n ++ ".csv", out))) := by
  constructor
  · intro e he
    simp [generate_csv, he]
  · intro df hdf
    have hc : hasAllCols df ["Issue Type", "Summary", "Label"] = true := by
      unfold hasAllCols
      rw [merge_files_ok_cols hdf]
      decide
    have hsel : selectCols df ["Issue Type", "Summary", "Label"] =
        some ⟨["Issue Type", "Summary", "Label"],
              df.rows.map (fun p => (p.1, ["Issue Type", "Summary", "Label"].filterMap
                (fun c => (getCell p.2 c).map (fun v => (c, v)))))⟩ := by
      unfold selectCols
      rw [hc]
      rfl
    exact ⟨_, hsel, by simp [generate_csv, hdf, hsel]⟩

/-- The merged table of the end-to-end success scenario. -/
def mergedDF8 : DataFrame :=
  ⟨["Summary", "Issue key", "Issue Type", "Feature", "Sprint", "Label"],
   [(0, [("Summary", "JL-3 Write docs"), ("Issue key", "JL-3"), ("Issue Type", "Story"),
         ("Feature", "F-1"), ("Sprint", "PI23.2 Sprint 3"), ("Label", "team-kiwi")])]⟩

/-- Witness for C8 on the end-to-end success scenario: the merge
succeeds and the written file holds the three columns in order. -/
theorem generate_csv_output_spec_witness :
    merge_files fs8 "jira.csv" "map.csv" = .ok mergedDF8 ∧
    ∃ out, selectCols mergedDF8 ["Issue Type", "Summary", "Label"] = some out ∧
      generate_csv fs8 "jira.csv" "map.csv" "out" =
        .msg "CSV file generated successfully!" (some ("out" ++ ".csv", out)) :=
  ⟨by decide,
   (generate_csv_output_spec fs8 "jira.csv" "map.csv" "out").2 mergedDF8 (by decide)⟩

end JiraLand
